import Mathlib

/-!
Shallow embedding of the data-reshaping and evaluation layer of the
`recommender_system` repository (notebook
`movie_recommendation_embeddings_Neuran_network.ipynb`), together with
theorems settling the specification claims about it.

Numbers are modelled as exact rationals (`ℚ`); Python exceptions are
modelled with `Except`; Python's `None`-like degenerate values
(`np.mean([])` yielding `NaN`) are modelled with `Option`, `none`
standing for `NaN`.
-/

/-- Python's `round` uses banker's rounding (round half to even) on the
nearest integer.  `roundHalfEven q` is that rounding for a rational. -/
def roundHalfEven (q : ℚ) : ℤ :=
  let f : ℤ := ⌊q⌋
  let frac : ℚ := q - f
  if frac < 1/2 then f
  else if 1/2 < frac then f + 1
  else if f % 2 = 0 then f else f + 1

/-- Python's `round(x, 2)`: round to two decimal places, ties to even. -/
def round2 (q : ℚ) : ℚ := (roundHalfEven (q * 100) : ℚ) / 100

/-- One row of the notebook's rating data: the jsonl rows carry a
`label` (the rating) and the user / movie ids (`in0` / `in1`). -/
structure Record where
  user : ℕ
  item : ℕ
  label : ℚ
deriving DecidableEq, Repr

/-- Function `np.mean` over a list: the arithmetic mean for a non-empty list, and
`NaN` (modelled as `none`) for the empty list. -/
def npMean (l : List ℚ) : Option ℚ :=
  if l = [] then none else some (l.sum / l.length)

/-! ## Scorer: `get_mse_loss` (notebook cell 22)

```python
def get_mse_loss(res, labels):
    if type(res) is dict:
        res = res['predictions']
    assert len(res)==len(labels), 'result and label length mismatch!'
    loss = 0
    for row, label in zip(res, labels):
        if type(row)is dict:
            loss += (row['scores'][0]-label)**2
        else:
            loss += (row-label)**2
    return round(loss/float(len(labels)), 2)
```
-/

/-- One prediction row handed to `get_mse_loss`: either a bare number,
or a dict `{'scores': [...]}` as returned by the deployed endpoint. -/
inductive PredRow where
  | num (x : ℚ)
  | obj (scores : List ℚ)
deriving DecidableEq, Repr

/-- The whole `res` argument of `get_mse_loss`: either a bare sequence
of rows, or a dict `{'predictions': [...]}` wrapping such a sequence. -/
inductive MseRes where
  | rows (rs : List PredRow)
  | response (predictions : List PredRow)
deriving DecidableEq, Repr

/-- Python exceptions `get_mse_loss` can raise: the assertion on
lengths, `row['scores'][0]` on an empty `scores` list, and the final
division by `len(labels)`. -/
inductive MseError where
  | lengthMismatch
  | indexError
  | zeroDivision
deriving DecidableEq, Repr

/-- The `if type(res) is dict: res = res['predictions']` normalization. -/
def unwrapRes : MseRes → List PredRow
  | .rows rs => rs
  | .response rs => rs

/-- One loop iteration of `get_mse_loss`: the squared difference
contributed by one row, `row['scores'][0]` raising `IndexError` when
`scores` is empty. -/
def rowContrib (row : PredRow) (label : ℚ) : Except MseError ℚ :=
  match row with
  | .num x => .ok ((x - label) ^ 2)
  | .obj [] => .error .indexError
  | .obj (x :: _) => .ok ((x - label) ^ 2)

/-- The accumulation loop `for row, label in zip(res, labels): loss += ...`
of `get_mse_loss`, aborting at the first raised exception. -/
def mseLoop : List (PredRow × ℚ) → ℚ → Except MseError ℚ
  | [], acc => .ok acc
  | (row, label) :: rest, acc =>
    match rowContrib row label with
    | .error e => .error e
    | .ok c => mseLoop rest (acc + c)

/-- Function `get_mse_loss` from the notebook: unwrap a dict-shaped `res`, assert
equal lengths, accumulate squared differences over `zip res labels`,
and return the mean rounded to two decimal places (division by zero
when `labels` is empty). -/
def get_mse_loss (res : MseRes) (labels : List ℚ) : Except MseError ℚ :=
  let rs := unwrapRes res
  if rs.length ≠ labels.length then .error .lengthMismatch
  else
    match mseLoop (rs.zip labels) 0 with
    | .error e => .error e
    | .ok loss =>
      if labels.length = 0 then .error .zeroDivision
      else .ok (round2 (loss / (labels.length : ℚ)))

deriving instance DecidableEq for Except

example : get_mse_loss (.rows [.num 4, .num 3, .num 5]) [4, 3, 5] = .ok 0 := by
  norm_num [get_mse_loss, unwrapRes, mseLoop, rowContrib, round2, roundHalfEven]

example : get_mse_loss (.rows [.num 1]) [3] = .ok 4 := by
  norm_num [get_mse_loss, unwrapRes, mseLoop, rowContrib, round2, roundHalfEven]

example : get_mse_loss (.rows [.num 1, .num 2, .num 3]) [0, 0, 0] = .ok (467/100) := by
  norm_num [get_mse_loss, unwrapRes, mseLoop, rowContrib, round2, roundHalfEven]

/-! ## Baseline 1: global rating average (notebook cell 25)

```python
train_r_label = [row['label'] for row in copy.deepcopy(train_data_list)]
bs1_prediction = round(np.mean(train_r_label), 2)
...
get_mse_loss(len(valid_r_label)*[bs1_prediction], valid_r_label)
```
-/

/-- Value `bs1_prediction`: the global training-rating average, rounded to two
decimal places; `none` models the `NaN` that `np.mean` produces on an
empty list (`round(nan, 2)` is again `nan`). -/
def bs1_prediction (train_data_list : List Record) : Option ℚ :=
  (npMean (train_data_list.map Record.label)).map round2

/-- The Baseline-1 prediction list `len(valid_r_label)*[bs1_prediction]`:
the same constant replicated for every validation query. -/
def bs1_predictions (train_data_list : List Record) (n : ℕ) : Option (List ℚ) :=
  (bs1_prediction train_data_list).map (List.replicate n)

/-! ## Baseline 2: per-user rating average (notebook cell 28)

```python
def bs2_predictor(test_data, user_dict, is_classification=False, thres=3):
    test_data = copy.deepcopy(test_data['instances'])
    predictions = list()
    for row in test_data:
        userID = str(row["in0"][0])
        local_movies, local_ratings = zip(*user_dict[userID])
        local_ratings = [float(score) for score in local_ratings]
        predictions.append(np.mean(local_ratings))
        if is_classification:
            predictions[-1] = int(predictions[-1] > 3)
    return predictions
```
-/

/-- One inference instance sent to a predictor: `in0` holds the user id,
`in1` the movie id (each a singleton list in the jsonl encoding). -/
structure Instance where
  in0 : List ℕ
  in1 : List ℕ
deriving DecidableEq, Repr

/-- The per-user index `to_users_dict`: an association list from a user
id to the list of `(movie id, rating)` pairs of that user, in input
order. -/
def UserDict := List (ℕ × List (ℕ × ℚ))

/-- Python exceptions `bs2_predictor` can raise: `row["in0"][0]` on an
empty `in0` (`IndexError`), `user_dict[userID]` for an absent user
(`KeyError`), and `zip(*[])` unpacking on an empty bucket
(`ValueError`). -/
inductive Bs2Error where
  | indexError
  | keyError
  | valueError
deriving DecidableEq, Repr

/-- The body of `bs2_predictor`'s loop for one row: look the user up in
`user_dict`, average the ratings of its bucket, and in classification
mode replace the mean `m` by `int(m > 3)` — the literal `3`, the `thres`
argument being unused in the source. -/
def bs2_predictOne (user_dict : UserDict) (is_classification : Bool)
    (thres : ℚ) (row : Instance) : Except Bs2Error ℚ :=
  match row.in0 with
  | [] => .error .indexError
  | u :: _ =>
    match List.lookup u user_dict with
    | none => .error .keyError
    | some [] => .error .valueError
    | some (b :: bs) =>
      let local_ratings := (b :: bs).map Prod.snd
      let m := local_ratings.sum / (local_ratings.length : ℚ)
      .ok (if is_classification then (if 3 < m then 1 else 0) else m)

/-- Function `bs2_predictor` from the notebook, processing the instance list and
aborting at the first raised exception. -/
def bs2_predictor (test_data : List Instance) (user_dict : UserDict)
    (is_classification : Bool) (thres : ℚ) : Except Bs2Error (List ℚ) :=
  test_data.mapM (bs2_predictOne user_dict is_classification thres)

/-! ## Label binarization -/

/-- Modelled from the spec: `get_binarized_label` lives in
`customutil.py`, which is not among the repository sources; §4.3 of the
spec defines the transform as `label = 1 if record.rating > threshold
else 0`.  Here the rating of a `Record` is its `label` field. -/
def to_classification_label (r : Record) (threshold : ℚ) : Record :=
  { r with label := if threshold < r.label then 1 else 0 }

example : round2 (14/3) = 467/100 := by
  norm_num [round2, roundHalfEven, Int.fract]

example : round2 4 = 4 := by
  norm_num [round2, roundHalfEven, Int.fract]

example : bs1_prediction [⟨1, 1, 5⟩, ⟨1, 2, 3⟩, ⟨2, 1, 4⟩] = some 4 := by
  have h : npMean ([⟨1, 1, 5⟩, ⟨1, 2, 3⟩, ⟨2, 1, 4⟩].map Record.label) = some 4 := by
    unfold npMean
    rw [if_neg (by simp)]
    norm_num
  rw [bs1_prediction, h, Option.map_some']
  norm_num [round2, roundHalfEven, Int.fract]

example : bs2_predictor [⟨[1], [1]⟩] [(1, [(10, 5), (20, 3)])] false 3 = .ok [4] := by
  norm_num [bs2_predictor, bs2_predictOne, List.mapM, List.mapM.loop, List.lookup]

/-! ## Helper lemmas about the Scorer -/

/-- Evaluating the loop on bare-number rows: it always succeeds with the
accumulated sum of squared differences. -/
lemma mseLoop_nums (ps ls : List ℚ) (acc : ℚ) :
    mseLoop ((ps.map PredRow.num).zip ls) acc
      = .ok (acc + (List.zipWith (fun p l => (p - l) ^ 2) ps ls).sum) := by
  induction ps generalizing ls acc with
  | nil => simp [mseLoop]
  | cons p ps ih =>
    cases ls with
    | nil => simp [mseLoop]
    | cons l ls =>
      simp only [List.map_cons, List.zip_cons_cons, mseLoop, rowContrib,
        List.zipWith_cons_cons, List.sum_cons]
      rw [← add_assoc]
      exact ih ls (acc + (p - l) ^ 2)

/-- The loop never raises the division-by-zero exception: that one only
comes from the final division. -/
lemma mseLoop_ne_zeroDivision (l : List (PredRow × ℚ)) (acc : ℚ) :
    mseLoop l acc ≠ .error .zeroDivision := by
  induction l generalizing acc with
  | nil => simp [mseLoop]
  | cons p rest ih =>
    obtain ⟨row, label⟩ := p
    cases row with
    | num x => simpa [mseLoop, rowContrib] using ih _
    | obj s =>
      cases s with
      | nil => simp [mseLoop, rowContrib]
      | cons a s => simpa [mseLoop, rowContrib] using ih _

/-- Full evaluation of `get_mse_loss` on equal-length, non-empty,
bare-number inputs. -/
lemma get_mse_loss_nums (ps ls : List ℚ) (hne : ps ≠ [])
    (hlen : ps.length = ls.length) :
    get_mse_loss (.rows (ps.map PredRow.num)) ls
      = .ok (round2 ((List.zipWith (fun p l => (p - l) ^ 2) ps ls).sum
          / (ls.length : ℚ))) := by
  have hls : ls.length ≠ 0 := by
    rw [← hlen]
    simpa using hne
  simp only [get_mse_loss, unwrapRes, List.length_map, hlen, ne_eq,
    not_true_eq_false, if_false, mseLoop_nums, zero_add, hls, if_neg hls]

/-- Replacing a bare-number row by a scored object with the same first
score does not change the loop. -/
lemma mseLoop_obj_eq (xs ls : List ℚ) (ts : List (List ℚ)) (acc : ℚ)
    (h : ts.length = xs.length) :
    mseLoop ((List.zipWith (fun x t => PredRow.obj (x :: t)) xs ts).zip ls) acc
      = mseLoop ((xs.map PredRow.num).zip ls) acc := by
  induction xs generalizing ts ls acc with
  | nil => simp
  | cons x xs ih =>
    cases ts with
    | nil => simp at h
    | cons t ts =>
      cases ls with
      | nil => simp [mseLoop]
      | cons l ls =>
        simp only [List.zipWith_cons_cons, List.map_cons, List.zip_cons_cons,
          mseLoop, rowContrib]
        exact ih _ _ _ (by simpa using h)

/-! ## Claims about the Scorer -/

/-- C3 counterexample: on predictions `[1, 2, 3]` and labels
`[0, 0, 0]`, `get_mse_loss` does not return the unrounded mean
`(1 + 4 + 9) / 3 = 14/3`: it returns `4.67`. -/
theorem spec_C3_counterexample :
    get_mse_loss (.rows [.num 1, .num 2, .num 3]) [0, 0, 0]
      ≠ .ok ((((1 : ℚ) - 0) ^ 2 + ((2 : ℚ) - 0) ^ 2 + ((3 : ℚ) - 0) ^ 2) / 3) := by
  have h : get_mse_loss (.rows [.num 1, .num 2, .num 3]) [0, 0, 0]
      = .ok (467/100) := by
    norm_num [get_mse_loss, unwrapRes, mseLoop, rowContrib, round2, roundHalfEven]
  rw [h]
  simp only [ne_eq, Except.ok.injEq]
  norm_num

/-- C3 (amended): for every pair of equal-length non-empty numeric
prediction and label sequences, `get_mse_loss` returns
`sum((p_i - l_i)^2) / n` rounded to two decimal places (ties to
even), Python's `round(..., 2)`. -/
theorem spec_C3_amended (ps ls : List ℚ) (hne : ps ≠ [])
    (hlen : ps.length = ls.length) :
    get_mse_loss (.rows (ps.map PredRow.num)) ls
      = .ok (round2 ((List.zipWith (fun p l => (p - l) ^ 2) ps ls).sum
          / (ls.length : ℚ))) :=
  get_mse_loss_nums ps ls hne hlen

/-- Witness for C3 (amended) at predictions `[1]`, labels `[3]`. -/
theorem spec_C3_amended_witness :
    get_mse_loss (.rows ([(1 : ℚ)].map PredRow.num)) [3]
      = .ok (round2 ((List.zipWith (fun p l => (p - l) ^ 2) [(1 : ℚ)] [3]).sum
          / (([(3 : ℚ)].length : ℕ) : ℚ))) :=
  spec_C3_amended [1] [3] (by simp) (by simp)

/-- C9: for every pair of equal-length non-empty numeric prediction and
label sequences, `get_mse_loss` returns the mean of squared differences
rounded to two decimal places, `round(sum((p_i - l_i)^2) / n, 2)`, not
the unrounded mean. -/
theorem spec_C9 (ps ls : List ℚ) (hne : ls ≠ [])
    (hlen : ps.length = ls.length) :
    get_mse_loss (.rows (ps.map PredRow.num)) ls
      = .ok (round2 ((List.zipWith (fun p l => (p - l) ^ 2) ps ls).sum
          / ((List.zipWith (fun p l => (p - l) ^ 2) ps ls).length : ℚ))) := by
  have hne' : ps ≠ [] := by
    intro h
    rw [h] at hlen
    exact hne (List.eq_nil_of_length_eq_zero hlen.symm)
  have hzlen : (List.zipWith (fun p l => (p - l) ^ 2) ps ls).length = ls.length := by
    rw [List.length_zipWith, hlen, min_self]
  rw [hzlen]
  exact get_mse_loss_nums ps ls hne' hlen

/-- Witness for C9 at predictions `[1, 2, 3]`, labels `[0, 0, 0]`. -/
theorem spec_C9_witness :
    get_mse_loss (.rows ([(1 : ℚ), 2, 3].map PredRow.num)) [0, 0, 0]
      = .ok (round2 ((List.zipWith (fun p l => (p - l) ^ 2) [(1 : ℚ), 2, 3] [0, 0, 0]).sum
          / ((List.zipWith (fun p l => (p - l) ^ 2) [(1 : ℚ), 2, 3] [0, 0, 0]).length : ℚ))) :=
  spec_C9 [1, 2, 3] [0, 0, 0] (by simp) (by simp)

/-- C4: whenever the (normalized) prediction sequence and the label
sequence have different lengths, `get_mse_loss` fails with the
length-mismatch assertion instead of returning a value. -/
theorem spec_C4 (res : MseRes) (labels : List ℚ)
    (h : (unwrapRes res).length ≠ labels.length) :
    get_mse_loss res labels = .error .lengthMismatch := by
  simp only [get_mse_loss, h, ne_eq, not_false_eq_true, if_true]

/-- Witness for C4 at an empty prediction list against one label. -/
theorem spec_C4_witness :
    get_mse_loss (.rows []) [3] = .error .lengthMismatch :=
  spec_C4 (.rows []) [3] (by simp [unwrapRes])

/-- C5: the Scorer normalizes both prediction shapes to the same value:
on a non-empty list of numbers and an equal-length label list,
`get_mse_loss` on the bare numbers equals `get_mse_loss` on structured
score objects whose `scores` list carries the corresponding number as
its first element. -/
theorem spec_C5 (xs ls : List ℚ) (ts : List (List ℚ)) (hne : xs ≠ [])
    (hlen : xs.length = ls.length) (hts : ts.length = xs.length) :
    get_mse_loss (.rows (List.zipWith (fun x t => PredRow.obj (x :: t)) xs ts)) ls
      = get_mse_loss (.rows (xs.map PredRow.num)) ls := by
  have hzlen : (List.zipWith (fun x t => PredRow.obj (x :: t)) xs ts).length
      = xs.length := by
    rw [List.length_zipWith, hts, min_comm, min_self]
  simp only [get_mse_loss, unwrapRes, hzlen, List.length_map]
  rw [mseLoop_obj_eq xs ls ts 0 hts]

/-- Witness for C5 at numbers `[1]`, labels `[2]`, score tails `[[9]]`. -/
theorem spec_C5_witness :
    get_mse_loss (.rows (List.zipWith (fun x t => PredRow.obj (x :: t)) [(1 : ℚ)] [[9]])) [2]
      = get_mse_loss (.rows ([(1 : ℚ)].map PredRow.num)) [2] :=
  spec_C5 [1] [2] [[9]] (by simp) (by simp) (by simp)

/-- C10: `get_mse_loss` divides by the label count without a guard: on
two empty sequences it fails with the division-by-zero error, and for a
non-empty label sequence that error is unreachable. -/
theorem spec_C10 :
    get_mse_loss (.rows []) [] = .error .zeroDivision ∧
    ∀ (res : MseRes) (labels : List ℚ), labels ≠ [] →
      get_mse_loss res labels ≠ .error .zeroDivision := by
  constructor
  · rfl
  · intro res labels hne
    rw [get_mse_loss]
    by_cases hl : (unwrapRes res).length ≠ labels.length
    · rw [if_pos hl]
      intro hEq
      exact MseError.noConfusion (Except.error.inj hEq)
    · rw [if_neg hl]
      rcases hloop : mseLoop ((unwrapRes res).zip labels) 0 with e | v
      · have he : e ≠ MseError.zeroDivision := by
          intro hEq
          exact mseLoop_ne_zeroDivision _ _ (by rw [hloop, hEq])
        intro hEq
        exact he (Except.error.inj hEq)
      · have hzero : labels.length ≠ 0 := by simpa using hne
        show (if labels.length = 0 then Except.error MseError.zeroDivision
            else Except.ok (round2 (v / (labels.length : ℚ))))
          ≠ Except.error MseError.zeroDivision
        rw [if_neg hzero]
        intro hEq
        exact Except.noConfusion hEq

/-- Witness for C10's unreachability half at one prediction and one
label. -/
theorem spec_C10_witness :
    get_mse_loss (.rows [.num 1]) [2] ≠ .error .zeroDivision :=
  spec_C10.2 (.rows [.num 1]) [2] (by simp)

/-! ## Claims about the baseline predictors and binarization -/

/-- C1: for every user index and every query whose user has a bucket
with at least one rating, `bs2_predictor` returns the arithmetic mean of
exactly that user's training ratings; for every query whose user has no
bucket, it raises the `KeyError` of `user_dict[userID]`. -/
theorem spec_C1 (user_dict : UserDict) (u : ℕ) (rest movies : List ℕ) :
    (∀ b, List.lookup u user_dict = some b → b ≠ [] →
      bs2_predictor [⟨u :: rest, movies⟩] user_dict false 3
        = .ok [(b.map Prod.snd).sum / ((b.map Prod.snd).length : ℚ)]) ∧
    (List.lookup u user_dict = none →
      bs2_predictor [⟨u :: rest, movies⟩] user_dict false 3
        = .error .keyError) := by
  constructor
  · intro b hb hbne
    match b, hbne with
    | p :: ps, _ =>
      simp [bs2_predictor, bs2_predictOne, hb, List.mapM, List.mapM.loop]
  · intro hnone
    simp [bs2_predictor, bs2_predictOne, hnone, List.mapM, List.mapM.loop]

/-- Witness for C1: user `1` with bucket `[(10, 5), (20, 3)]` gets mean
`(5 + 3) / 2`; user `2` is absent and raises. -/
theorem spec_C1_witness :
    bs2_predictor [⟨[1], [10]⟩] [(1, [(10, 5), (20, 3)])] false 3
        = .ok [([((10 : ℕ), (5 : ℚ)), (20, 3)].map Prod.snd).sum
          / (([((10 : ℕ), (5 : ℚ)), (20, 3)].map Prod.snd).length : ℚ)] ∧
    bs2_predictor [⟨[2], [10]⟩] [(1, [(10, 5), (20, 3)])] false 3
        = .error .keyError :=
  ⟨(spec_C1 [(1, [(10, 5), (20, 3)])] 1 [] [10]).1 [(10, 5), (20, 3)]
      (by simp [List.lookup]) (by simp),
   (spec_C1 [(1, [(10, 5), (20, 3)])] 2 [] [10]).2 (by simp [List.lookup])⟩

/-- C2 is a code bug: `bs2_predictor` declares a `thres` parameter
(default `3`) but binarizes with the literal `3`: with `thres = 10` and
a user whose mean rating is `5`, the code returns label `1`, while the
claimed `to_classification_label` semantics at threshold `10` gives
`0`. -/
theorem spec_C2_code :
    bs2_predictor [⟨[1], [10]⟩] [(1, [(10, 5)])] true 10 = .ok [1] ∧
    (to_classification_label ⟨1, 10, 5⟩ 10).label = 0 := by
  constructor
  · norm_num [bs2_predictor, bs2_predictOne, List.mapM, List.mapM.loop,
      List.lookup]
  · norm_num [to_classification_label]

/-- C6 counterexample: on training ratings `[1, 1, 2]` the precomputed
Baseline-1 constant is not the arithmetic mean `4/3`: the code rounds it
to two decimal places, giving `1.33`. -/
theorem spec_C6_counterexample :
    bs1_prediction [⟨1, 1, 1⟩, ⟨2, 2, 1⟩, ⟨3, 3, 2⟩]
      ≠ some (((1 : ℚ) + 1 + 2) / 3) := by
  have hm : npMean ([⟨1, 1, 1⟩, ⟨2, 2, 1⟩, ⟨3, 3, 2⟩].map Record.label)
      = some (4/3) := by
    unfold npMean
    rw [if_neg (by simp)]
    norm_num
  have h : bs1_prediction [⟨1, 1, 1⟩, ⟨2, 2, 1⟩, ⟨3, 3, 2⟩]
      = some (133/100) := by
    rw [bs1_prediction, hm, Option.map_some']
    norm_num [round2, roundHalfEven, Int.fract]
  rw [h]
  simp only [ne_eq, Option.some.injEq]
  norm_num

/-- C6 (amended): `bs1_prediction` precomputes the arithmetic mean of
all training ratings rounded to two decimal places; every Baseline-1
prediction equals that constant; and on the scenario dataset
`[(u1,m1,5), (u1,m2,3), (u2,m1,4)]` every prediction equals `4`. -/
theorem spec_C6_amended :
    (∀ l : List Record, l ≠ [] →
      bs1_prediction l = some (round2 ((l.map Record.label).sum
        / ((l.map Record.label).length : ℚ)))) ∧
    (∀ (l : List Record) (n : ℕ) (ps : List ℚ),
      bs1_predictions l n = some ps → ∀ x ∈ ps, some x = bs1_prediction l) ∧
    (∀ n : ℕ, bs1_predictions [⟨1, 1, 5⟩, ⟨1, 2, 3⟩, ⟨2, 1, 4⟩] n
      = some (List.replicate n 4)) := by
  have hconst : ∀ l : List Record, l ≠ [] →
      bs1_prediction l = some (round2 ((l.map Record.label).sum
        / ((l.map Record.label).length : ℚ))) := by
    intro l hl
    have hm : l.map Record.label ≠ [] := by simpa using hl
    rw [bs1_prediction]
    unfold npMean
    rw [if_neg hm, Option.map_some']
  refine ⟨hconst, ?_, ?_⟩
  · intro l n ps hps x hx
    rcases Option.map_eq_some'.mp hps with ⟨q, hq, rfl⟩
    rw [List.eq_of_mem_replicate hx, hq]
  · intro n
    have h4 : bs1_prediction [⟨1, 1, 5⟩, ⟨1, 2, 3⟩, ⟨2, 1, 4⟩] = some 4 := by
      rw [hconst _ (by simp)]
      norm_num [round2, roundHalfEven, Int.fract]
    rw [bs1_predictions, h4, Option.map_some']

/-- Witness for C6 (amended) at the scenario dataset. -/
theorem spec_C6_amended_witness :
    bs1_prediction [⟨1, 1, 5⟩, ⟨1, 2, 3⟩, ⟨2, 1, 4⟩]
      = some (round2 ((([⟨1, 1, 5⟩, ⟨1, 2, 3⟩, ⟨2, 1, 4⟩] : List Record).map
            Record.label).sum
        / ((([⟨1, 1, 5⟩, ⟨1, 2, 3⟩, ⟨2, 1, 4⟩] : List Record).map
            Record.label).length : ℚ))) :=
  spec_C6_amended.1 _ (by simp)

/-- C7 (the binarizer is modelled from the spec, `customutil.py` being
absent from the sources): with threshold `3`, rating `4` yields label
`1`, rating exactly `3` yields `0`, and rating `2` yields `0`. -/
theorem spec_C7 :
    (to_classification_label ⟨1, 1, 4⟩ 3).label = 1 ∧
    (to_classification_label ⟨1, 1, 3⟩ 3).label = 0 ∧
    (to_classification_label ⟨1, 1, 2⟩ 3).label = 0 := by
  norm_num [to_classification_label]

/-- C8: on an empty training set the global-mean computation yields the
`NaN` degenerate value (modelled `none`) — and only then — so it never
silently returns zero or any other ordinary number. -/
theorem spec_C8 :
    (∀ l : List Record, bs1_prediction l = none ↔ l = []) ∧
    (∀ q : ℚ, bs1_prediction [] ≠ some q) := by
  have hmain : ∀ l : List Record, bs1_prediction l = none ↔ l = [] := by
    intro l
    rw [bs1_prediction, Option.map_eq_none']
    unfold npMean
    constructor
    · intro h
      by_contra hl
      rw [if_neg (by simpa using hl)] at h
      exact Option.noConfusion h
    · rintro rfl
      simp
  refine ⟨hmain, fun q hq => ?_⟩
  rw [(hmain []).mpr rfl] at hq
  exact Option.noConfusion hq
